import Mathlib

/-!
Verification of the P2000-NFTY forwarder against its specification.

The Go sources are shallowly embedded: pure helpers become Lean functions,
the stateful connect/retry loops become explicit state-passing functions
over finite scripts of external outcomes, and Go maps become association
lists where the most recent insertion is found first.  Durations are
modelled in whole seconds as naturals.
-/

namespace P2000

/-! ## internal/capcode/lookup.go -/

/-- CapcodeInfo mirrors the five string fields parsed from one CSV row. -/
structure CapcodeInfo where
  capcode : String
  agency : String
  region : String
  station : String
  function : String
deriving DecidableEq, Repr

/-- A Go map from string keys to records, as an association list in which the
most recent insertion comes first (so a later write overwrites earlier ones). -/
abbrev CapMap := List (String × CapcodeInfo)

/-- Go map write: the new binding shadows any previous binding of the key. -/
def mapInsert (m : CapMap) (k : String) (v : CapcodeInfo) : CapMap :=
  (k, v) :: m

/-- Go map read: the most recent binding of the key, if any. -/
def mapGet (m : CapMap) (k : String) : Option CapcodeInfo :=
  (m.find? (fun p => p.1 == k)).map (fun p => p.2)

/-- Lookup wraps the capcode-indexed data map. -/
structure Lookup where
  data : CapMap
deriving DecidableEq, Repr

/-- strings.TrimLeft(s, "0"): remove every leading zero character. -/
def stripLeadingZeros (s : String) : String :=
  String.mk (s.data.dropWhile (fun c => c == '0'))

/-- The normalized key of lookup.go lines 74-77 and 96-99: leading zeros
stripped, and "0" when stripping leaves nothing. -/
def normalizeKey (s : String) : String :=
  let t := stripLeadingZeros s
  if t = "" then "0" else t

/-- Lookup.Get (lookup.go lines 89-106): exact match first, then the
normalized form, nil when neither key is present. -/
def Lookup.Get (l : Lookup) (capcode : String) : Option CapcodeInfo :=
  match mapGet l.data capcode with
  | some info => some info
  | none => mapGet l.data (normalizeKey capcode)

/-- strings.Trim(s, (quote)): drop leading and trailing double-quote chars. -/
def trimQuotes (s : String) : String :=
  String.mk (((s.data.dropWhile (fun c => c == '"')).reverse.dropWhile
    (fun c => c == '"')).reverse)

/-- ASCII lower-casing of one character; strings.ToLower restricted to the
ASCII range, which is all the header heuristic ever meets. -/
def charToLower (c : Char) : Char :=
  if 65 ≤ c.toNat ∧ c.toNat ≤ 90 then Char.ofNat (c.toNat + 32) else c

/-- strings.ToLower over the character list. -/
def strToLower (s : String) : String :=
  String.mk (s.data.map charToLower)

/-- Substring containment, as strings.Contains: the pattern is a prefix of
some suffix. -/
def strContains (s pat : String) : Bool :=
  (List.range (s.data.length + 1)).any (fun i => List.isPrefixOf pat.data (s.data.drop i))

/-- The header heuristic of lookup.go lines 48-55: the first field of the
first row, lower-cased, mentions "capcode" or "cap".  (The Go CSV reader
never yields a record with zero fields, so the headD default is unreachable.) -/
def isHeaderRow (records : List (List String)) : Bool :=
  match records with
  | [] => false
  | r :: _ =>
    let firstRow := strToLower (r.headD "")
    strContains firstRow "capcode" || strContains firstRow "cap"

/-- The body of the row loop of lookup.go lines 58-82: rows with fewer than
five fields are skipped, others are indexed under the normalized key and then
under the literal capcode. -/
def parseRow (m : CapMap) (record : List String) : CapMap :=
  if record.length < 5 then m
  else
    let capcode := trimQuotes (record.getD 0 "")
    let info : CapcodeInfo :=
      { capcode := capcode
        agency := trimQuotes (record.getD 1 "")
        region := trimQuotes (record.getD 2 "")
        station := trimQuotes (record.getD 3 "")
        function := trimQuotes (record.getD 4 "") }
    mapInsert (mapInsert m (normalizeKey capcode) info) capcode info

/-- NewLookup's parsing phase over the records returned by the CSV reader. -/
def loadRecords (records : List (List String)) : Lookup :=
  let rows := if isHeaderRow records then records.drop 1 else records
  { data := rows.foldl parseRow [] }

/-- The outcome of the file-open and csv-ReadAll stages of NewLookup; the
parsed records are the input to the pure parsing phase. -/
inductive LoadInput where
  | openFailed
  | readFailed
  | parsed (records : List (List String))

/-- NewLookup (lookup.go lines 25-85): fails on file-open or CSV-read
failure, otherwise folds the records into the map. -/
def NewLookup : LoadInput → Except String Lookup
  | .openFailed => .error "failed to open capcode CSV"
  | .readFailed => .error "failed to read CSV"
  | .parsed records => .ok (loadRecords records)

/-! ## internal/filter/capcode.go -/

/-- CapcodeFilter: the forward-all flag and the key set of the allowed map. -/
structure CapcodeFilter where
  forwardAll : Bool
  allowedCaps : List String
deriving DecidableEq, Repr

/-- NewCapcodeFilter (capcode.go lines 15-34): every configured capcode is
inserted as a key of the allowed map. -/
def NewCapcodeFilter (forwardAll : Bool) (capcodes : List String) : CapcodeFilter :=
  { forwardAll := forwardAll, allowedCaps := capcodes }

/-- ShouldForward (capcode.go lines 37-64): forward-all short-circuits to
true, an empty list returns false, otherwise any exact key match forwards. -/
def CapcodeFilter.ShouldForward (f : CapcodeFilter) (capcodes : List String) : Bool :=
  if f.forwardAll then true
  else if capcodes.isEmpty then false
  else capcodes.any (fun c => f.allowedCaps.contains c)

/-! ## internal/websocket/client.go: data model and JSON decoding -/

/-- Signal mirrors the nested signal object. -/
structure Signal where
  baudrate : Int
  frame : Int
  subtype : String
  function : String
deriving DecidableEq, Repr

/-- The Go zero value of Signal. -/
def Signal.zero : Signal :=
  { baudrate := 0, frame := 0, subtype := "", function := "" }

/-- P2000Message mirrors the decoded message struct.  The float64 field
frequency_error is modelled as the exact rational value of the JSON numeral;
the program never computes with it. -/
structure P2000Message where
  type : String
  timestamp : Int
  signal : Signal
  frequencyErr : Rat
  capcodes : List String
  message : String
  agency : String
deriving DecidableEq, Repr

/-- The Go zero value of P2000Message (a nil slice is the empty list). -/
def P2000Message.zero : P2000Message :=
  { type := "", timestamp := 0, signal := Signal.zero, frequencyErr := 0
    capcodes := [], message := "", agency := "" }

/-- JSON values, with numerals kept exact. -/
inductive JVal where
  | null
  | bool (b : Bool)
  | num (q : Rat)
  | str (s : String)
  | arr (elems : List JVal)
  | obj (fields : List (String × JVal))

/-- Object field access as encoding/json performs it: with duplicate keys the
later value wins. -/
def jField (fields : List (String × JVal)) (k : String) : Option JVal :=
  match fields with
  | [] => none
  | (k1, v) :: rest =>
    match jField rest k with
    | some w => some w
    | none => if k1 = k then some v else none

/-- Unmarshalling a JSON value into a Go string field: absent or null leaves
the zero value, a non-string value is a type error. -/
def decodeStrField : Option JVal → Except String String
  | none => .ok ""
  | some .null => .ok ""
  | some (.str s) => .ok s
  | some _ => .error "cannot unmarshal into field of type string"

/-- Unmarshalling into a Go integer field: the numeral must be integral. -/
def decodeIntField : Option JVal → Except String Int
  | none => .ok 0
  | some .null => .ok 0
  | some (.num q) =>
    if q.den = 1 then .ok q.num
    else .error "cannot unmarshal number into field of integer type"
  | some _ => .error "cannot unmarshal into field of integer type"

/-- Unmarshalling into the float64 field, kept as the exact numeral. -/
def decodeNumField : Option JVal → Except String Rat
  | none => .ok 0
  | some .null => .ok 0
  | some (.num q) => .ok q
  | some _ => .error "cannot unmarshal into field of type float64"

/-- Unmarshalling into a []string field: absent or null is the nil slice,
every element must unmarshal as a string. -/
def decodeStrListField : Option JVal → Except String (List String)
  | none => .ok []
  | some .null => .ok []
  | some (.arr elems) =>
    elems.mapM (fun v =>
      match v with
      | .null => Except.ok ""
      | .str s => Except.ok s
      | _ => Except.error "cannot unmarshal array element into string")
  | some _ => .error "cannot unmarshal into field of type []string"

/-- Unmarshalling the nested signal object. -/
def decodeSignal : Option JVal → Except String Signal
  | none => .ok Signal.zero
  | some .null => .ok Signal.zero
  | some (.obj fields) => do
    let baudrate ← decodeIntField (jField fields "baudrate")
    let frame ← decodeIntField (jField fields "frame")
    let subtype ← decodeStrField (jField fields "subtype")
    let function ← decodeStrField (jField fields "function")
    .ok { baudrate := baudrate, frame := frame, subtype := subtype, function := function }
  | some _ => .error "cannot unmarshal into field of type Signal"

/-- json.Unmarshal into P2000Message: unknown object fields are ignored,
missing fields keep their zero values, a non-object payload (other than null)
is an error. -/
def decodeP2000Message : JVal → Except String P2000Message
  | .null => .ok P2000Message.zero
  | .obj fields => do
    let type ← decodeStrField (jField fields "type")
    let timestamp ← decodeIntField (jField fields "timestamp")
    let signal ← decodeSignal (jField fields "signal")
    let frequencyErr ← decodeNumField (jField fields "frequency_error")
    let capcodes ← decodeStrListField (jField fields "capcodes")
    let message ← decodeStrField (jField fields "message")
    let agency ← decodeStrField (jField fields "agency")
    .ok { type := type, timestamp := timestamp, signal := signal
          frequencyErr := frequencyErr, capcodes := capcodes
          message := message, agency := agency }
  | _ => .error "cannot unmarshal into value of type P2000Message"

/-- A raw frame as json.Unmarshal sees it: none stands for a payload that is
not syntactically valid JSON. -/
abbrev RawFrame := Option JVal

/-- Client.handleMessage (client.go lines 155-174): a decode failure is
logged and dropped (no message is handed on), otherwise the handler receives
the decoded message. -/
def handleMessage (frame : RawFrame) : Option P2000Message :=
  match frame with
  | none => none
  | some v =>
    match decodeP2000Message v with
    | .error _ => none
    | .ok msg => some msg

/-- The read loop's effect on the handler over a list of successfully read
frames: each frame is handled in order; a decode failure never terminates
the loop, so the messages handed to the handler are the successfully decoded
ones in order. -/
def readLoopMessages (frames : List RawFrame) : List P2000Message :=
  frames.filterMap handleMessage

/-! ## internal/websocket/client.go: status channel -/

/-- make(chan bool, 1) in NewClient (client.go line 57). -/
def statusChanCapacity : Nat := 1

/-- The buffered contents of the status channel, oldest first. -/
abbrev StatusChan := List Bool

/-- notifyStatus (client.go lines 194-200): the select with a default case
is a try-send — enqueue when a buffer slot is free, otherwise drop the value
and continue immediately. -/
def notifyStatus (ch : StatusChan) (connected : Bool) : StatusChan :=
  if ch.length < statusChanCapacity then ch ++ [connected] else ch

/-- A blocking receive by the consumer, draining the oldest value. -/
def statusRecv (ch : StatusChan) : Option Bool × StatusChan :=
  match ch with
  | [] => (none, [])
  | v :: rest => (some v, rest)

/-- One interleaving step seen by the channel: the connection task reports a
status, or the consumer drains one. -/
inductive ChanOp where
  | report (connected : Bool)
  | drain

/-- The channel contents after a sequence of interleaved operations. -/
def chanRun (ch : StatusChan) : List ChanOp → StatusChan
  | [] => ch
  | .report b :: rest => chanRun (notifyStatus ch b) rest
  | .drain :: rest => chanRun (statusRecv ch).2 rest

/-! ## internal/websocket/client.go: backoff and the reconnect loop -/

/-- Connection constants of client.go lines 13-21, in seconds. -/
def initialBackoff : Nat := 1

/-- maxBackoff = 30s. -/
def maxBackoff : Nat := 30

/-- backoffMultiplier = 2. -/
def backoffMultiplier : Nat := 2

/-- increaseBackoff (client.go lines 203-208). -/
def increaseBackoff (b : Nat) : Nat :=
  let b1 := b * backoffMultiplier
  if b1 > maxBackoff then maxBackoff else b1

/-- resetBackoff (client.go lines 211-213). -/
def resetBackoff : Nat := initialBackoff

/-- Externally visible events of one run of the reconnect loop. -/
inductive ConnEvent where
  | dialFailed
  | dialOk
  | backoffReset
  | statusSent (connected : Bool)
  | frameRead
  | readFailed
  | waited (seconds : Nat)
deriving DecidableEq, Repr

/-- The behaviour of the upstream on one iteration of the Connect loop: the
dial fails, or it succeeds and the connection delivers some number of frames
before the read fails. -/
structure ConnAttempt where
  dialOk : Bool
  frames : Nat
deriving DecidableEq, Repr

/-- connectAndListen (client.go lines 91-152) for one iteration that is not
cancelled: a failed dial returns at once; a successful dial stores the
socket, resets the backoff, reports the status, then reads frames until the
read fails.  Returns the backoff value the outer loop sees and the event
trace. -/
def connectAndListenRun (b : Nat) (a : ConnAttempt) : Nat × List ConnEvent :=
  if a.dialOk then
    (resetBackoff,
      [ConnEvent.dialOk, ConnEvent.backoffReset, ConnEvent.statusSent true]
        ++ List.replicate a.frames ConnEvent.frameRead ++ [ConnEvent.readFailed])
  else
    (b, [ConnEvent.dialFailed])

/-- The Connect retry loop (client.go lines 64-88) over a finite script of
iterations: each error from connectAndListen reports a disconnect, waits the
current backoff, then doubles it (capped). -/
def connectRun (b : Nat) : List ConnAttempt → Nat × List ConnEvent
  | [] => (b, [])
  | a :: rest =>
    let step := connectAndListenRun b a
    let next := connectRun (increaseBackoff step.1) rest
    (next.1, step.2 ++ [ConnEvent.statusSent false, ConnEvent.waited step.1] ++ next.2)

/-- The reconnect delays of a trace, in order. -/
def delaysOf (events : List ConnEvent) : List Nat :=
  events.filterMap (fun e =>
    match e with
    | .waited s => some s
    | _ => none)

/-! ## internal/websocket/client.go: Close -/

/-- The close-relevant state of a Client: whether a socket is held, how many
close frames were written, and whether the done channel has been closed. -/
structure WSClient where
  connOpen : Bool
  closeFramesSent : Nat
  doneClosed : Bool
deriving DecidableEq, Repr

/-- closeConnection (client.go lines 177-186): when a socket is held, write a
close frame, close the socket and drop the handle; otherwise do nothing. -/
def closeConnection (c : WSClient) : WSClient :=
  if c.connOpen then
    { c with connOpen := false, closeFramesSent := c.closeFramesSent + 1 }
  else c

/-- Client.Close (client.go lines 216-220): close(c.done) — which panics on a
channel that is already closed — then closeConnection. -/
def WSClient.Close (c : WSClient) : Except String WSClient :=
  if c.doneClosed then .error "close of closed channel"
  else .ok (closeConnection { c with doneClosed := true })

/-! ## internal/notifier/ntfy.go -/

/-- Retry constants of ntfy.go lines 16-21; durations in seconds. -/
def maxRetries : Nat := 3

/-- retryBackoff = 2s. -/
def retryBackoff : Nat := 2

/-- defaultPriority = "3". -/
def defaultPriority : String := "3"

/-- Notifier state as built by NewNotifier: the server (trailing slash
trimmed), topic, optional bearer token, optional Basic-auth credentials, the
capcode translations map and the optional CSV lookup.  The HTTP client and
logger carry no data relevant here. -/
structure Notifier where
  server : String
  topic : String
  token : String
  username : String
  password : String
  translations : List (String × String)
  capcodeLookup : Option Lookup

/-- strings.TrimSuffix(server, "/"). -/
def trimSuffixSlash (s : String) : String :=
  match s.data.reverse with
  | '/' :: rest => String.mk rest.reverse
  | _ => s

/-- NewNotifier: stores server (trailing slash trimmed), topic, token,
username, password, translations and lookup. -/
def NewNotifier (server topic token username password : String)
    (translations : List (String × String)) (capcodeLookup : Option Lookup) : Notifier :=
  { server := trimSuffixSlash server, topic := topic, token := token
    username := username, password := password
    translations := translations, capcodeLookup := capcodeLookup }

/-- getTags: the FLEX message kind gets the emergency tag pair, everything
else the generic warning tag. -/
def getTags (msgType : String) : String :=
  if msgType = "FLEX" then "rotating_light,emergency" else "warning"

/-- formatTitle: the title is built from the message body, with the constant
placeholder when the body is empty (the receiver is unused, as in the
source). -/
def formatTitle (_n : Notifier) (msg : P2000Message) : String :=
  let message := msg.message
  if message ≠ "" then "🚨 " ++ message else "🚨 P2000"

/-- The non-empty detail fields of one record, in region, station, function
order, as collected by formatMessage's inner loop. -/
def capcodeDetails (info : CapcodeInfo) : List String :=
  (if info.region = "" then [] else [info.region])
    ++ (if info.station = "" then [] else [info.station])
    ++ (if info.function = "" then [] else [info.function])

/-- One capcode's line in formatMessage: a lookup hit renders the capcode
with its comma-joined non-empty details; a miss (or an absent lookup)
contributes nothing for that capcode. -/
def capcodeEntry (n : Notifier) (capcode : String) : String :=
  match n.capcodeLookup with
  | some lookup =>
    match lookup.Get capcode with
    | some info =>
      let details := capcodeDetails info
      if details.isEmpty then capcode ++ "\n"
      else capcode ++ " - " ++ String.intercalate ", " details ++ "\n"
    | none => ""
  | none => ""

/-- The capcode-details section of the body: absent for an empty capcode
list, otherwise the heading and one entry per capcode with the separator
written before every entry but the first. -/
def capcodeSection (n : Notifier) (msg : P2000Message) : String :=
  if msg.capcodes.isEmpty then ""
  else "Capcode Details:\n"
    ++ String.intercalate "\n" (msg.capcodes.map (capcodeEntry n))

/-- formatMessage: the agency label starts at the constant "overig" and is
overridden by the lookup record of the first capcode when the lookup is
present and matches; the label is followed by a blank line and the capcode
details section. -/
def formatMessage (n : Notifier) (msg : P2000Message) : String :=
  let agency :=
    match n.capcodeLookup, msg.capcodes with
    | some lookup, c :: _ =>
      match lookup.Get c with
      | some info => info.agency
      | none => "overig"
    | _, _ => "overig"
  agency ++ "\n\n" ++ capcodeSection n msg

/-- How the outbound request authenticates.  req.SetBasicAuth(u, p) writes
the Authorization header from the credential pair (its base64 serialization
is left abstract); the Bearer case is the literal Authorization header. -/
inductive AuthHeader where
  | none
  | basic (username password : String)
  | bearer (token : String)
deriving DecidableEq, Repr

/-- The request sendRequest builds before performing the HTTP call. -/
structure HttpRequest where
  method : String
  url : String
  body : String
  headers : List (String × String)
  auth : AuthHeader
deriving DecidableEq, Repr

/-- The headers, body and authentication of the outbound request as
sendRequest constructs them: Basic authentication whenever a password is
configured, else a Bearer token whenever a token is configured, else
unauthenticated. -/
def Notifier.sendRequestReq (n : Notifier) (title message priority tags : String) :
    HttpRequest :=
  { method := "POST"
    url := n.server ++ "/" ++ n.topic
    body := message
    headers := [("Title", title), ("Priority", priority), ("Tags", tags)]
    auth :=
      if n.password ≠ "" then .basic n.username n.password
      else if n.token ≠ "" then .bearer n.token
      else .none }

/-- What the environment does with one HTTP attempt: request construction
fails, the transport fails, or a response with a status code arrives. -/
inductive ReqOutcome where
  | constructErr
  | transportErr
  | response (status : Nat)
deriving DecidableEq, Repr

/-- The error-or-success result of sendRequest (ntfy.go lines 95-123) given
the attempt's outcome: any status outside [200,300) is an error, as is any
transport or request-construction failure. -/
def sendRequest : ReqOutcome → Except String Unit
  | .constructErr => .error "failed to create request"
  | .transportErr => .error "request failed"
  | .response status =>
    if status < 200 ∨ 300 ≤ status then
      .error ("unexpected status code: " ++ toString status)
    else .ok ()

/-- The error message of a failed attempt, none on success. -/
def reqErr (o : ReqOutcome) : Option String :=
  match sendRequest o with
  | .error e => some e
  | .ok _ => none

/-- How a call to Send returns. -/
inductive SendResult where
  | success
  | cancelled
  | exhausted (lastErr : Option String)
deriving DecidableEq, Repr

/-- What one run of Send did: its result, the backoff waits it completed (in
seconds, in order) and the number of HTTP attempts it performed. -/
structure SendTrace where
  result : SendResult
  waits : List Nat
  attempts : Nat
deriving DecidableEq, Repr

/-- The retry loop of Send (ntfy.go lines 60-91).  env gives the outcome of
each attempt by index; cancel says whether ctx.Done fires during the wait
preceding that attempt.  The fuel starts at maxRetries and attempt at 0, so
the loop body runs while attempt < maxRetries exactly as in the source:
before every attempt but the first it waits retryBackoff * attempt unless the
context fires first, then performs the attempt, retrying on any error. -/
def sendLoop (env : Nat → ReqOutcome) (cancel : Nat → Bool) :
    Nat → Nat → Option String → SendTrace
  | 0, _, lastErr => { result := .exhausted lastErr, waits := [], attempts := 0 }
  | fuel + 1, attempt, _lastErr =>
    if 0 < attempt ∧ cancel attempt then
      { result := .cancelled, waits := [], attempts := 0 }
    else
      let waitsHere := if 0 < attempt then [retryBackoff * attempt] else []
      match sendRequest (env attempt) with
      | .error e =>
        let t := sendLoop env cancel fuel (attempt + 1) (some e)
        { result := t.result, waits := waitsHere ++ t.waits, attempts := t.attempts + 1 }
      | .ok _ =>
        { result := .success, waits := waitsHere, attempts := 1 }

/-- Notifier.Send's retry behaviour. -/
def send (env : Nat → ReqOutcome) (cancel : Nat → Bool) : SendTrace :=
  sendLoop env cancel maxRetries 0 none

/-! ## Helper lemmas -/

/-- The empty map answers no query, whichever key form is tried. -/
lemma lookup_empty_Get (c : String) : Lookup.Get { data := [] } c = none := rfl

/-! ## C4: subscription filter -/

/-- C4: with allowAll the filter forwards everything, including the empty
list; otherwise it forwards exactly when some input capcode is literally a
member of the configured allow-set, and the empty input list is rejected. -/
theorem shouldForward_claim :
    (∀ allowed capcodes,
      (NewCapcodeFilter true allowed).ShouldForward capcodes = true)
    ∧ (∀ allowed capcodes,
      ((NewCapcodeFilter false allowed).ShouldForward capcodes = true
        ↔ ∃ c, c ∈ capcodes ∧ c ∈ allowed))
    ∧ (∀ allowed, (NewCapcodeFilter false allowed).ShouldForward [] = false) := by
  refine ⟨fun allowed capcodes => rfl, fun allowed capcodes => ?_, fun allowed => rfl⟩
  cases capcodes with
  | nil => simp [NewCapcodeFilter, CapcodeFilter.ShouldForward]
  | cons c cs =>
    simp [NewCapcodeFilter, CapcodeFilter.ShouldForward, List.any_eq_true]

/-- C4 witness: the allow-set demo of the spec's testable property 4, plus
the two empty-list cases. -/
theorem shouldForward_claim_witness :
    (NewCapcodeFilter false ["0101001", "0101002"]).ShouldForward
      ["9999999", "0101001"] = true
    ∧ (NewCapcodeFilter false ["0101001", "0101002"]).ShouldForward [] = false
    ∧ (NewCapcodeFilter true []).ShouldForward [] = true :=
  ⟨(shouldForward_claim.2.1 ["0101001", "0101002"] ["9999999", "0101001"]).mpr
      ⟨"0101001", by decide, by decide⟩,
    shouldForward_claim.2.2 ["0101001", "0101002"],
    shouldForward_claim.1 [] []⟩

/-! ## C5: enrichment lookup fallback -/

/-- C5: Get tries the exact key first, then the normalized key (leading
zeros stripped, empty becoming "0"), and returns nothing when both miss; in
particular, when the exact key misses but the normalized key is present,
Get c agrees with Get of the normalized key. -/
theorem lookupGet_claim :
    (∀ (l : Lookup) (c : String) (info : CapcodeInfo),
      mapGet l.data c = some info → l.Get c = some info)
    ∧ (∀ (l : Lookup) (c : String),
      mapGet l.data c = none → l.Get c = mapGet l.data (normalizeKey c))
    ∧ (∀ (l : Lookup) (c : String),
      mapGet l.data c = none → mapGet l.data (normalizeKey c) = none → l.Get c = none)
    ∧ (∀ (l : Lookup) (c : String),
      mapGet l.data c = none → (mapGet l.data (normalizeKey c)).isSome = true →
        l.Get c = l.Get (normalizeKey c)) := by
  refine ⟨?_, ?_, ?_, ?_⟩
  · intro l c info h
    simp [Lookup.Get, h]
  · intro l c h
    simp [Lookup.Get, h]
  · intro l c h h2
    simp [Lookup.Get, h, h2]
  · intro l c h h2
    obtain ⟨info, hinfo⟩ := Option.isSome_iff_exists.mp h2
    simp [Lookup.Get, h, hinfo]

/-- A loaded one-row table used to exercise the normalized fallback. -/
def lookupGetDemo : Lookup :=
  loadRecords [["0101001", "Brandweer", "Utrecht", "Utrecht", "Kazernealarm"]]

/-- C5 witness: "00101001" has no exact entry, its normalized key "101001"
does, and Get answers the same on both. -/
theorem lookupGet_claim_witness :
    mapGet lookupGetDemo.data "00101001" = none
    ∧ (mapGet lookupGetDemo.data (normalizeKey "00101001")).isSome = true
    ∧ lookupGetDemo.Get "00101001" = lookupGetDemo.Get (normalizeKey "00101001") :=
  ⟨by decide, by decide,
    lookupGet_claim.2.2.2 lookupGetDemo "00101001" (by decide) (by decide)⟩

/-! ## C10: loading an empty reference table -/

/-- C10: an empty record set, or one consisting only of a detected header
row, loads without error into a lookup that answers no query; the load
stage itself fails exactly on a file-open or CSV-read failure. -/
theorem newLookup_claim :
    (∀ c, (loadRecords []).Get c = none)
    ∧ (∀ r, isHeaderRow [r] = true → ∀ c, (loadRecords [r]).Get c = none)
    ∧ (∀ input, (∃ l, NewLookup input = .ok l) ↔ ∃ records, input = .parsed records) := by
  refine ⟨fun c => lookup_empty_Get c, ?_, ?_⟩
  · intro r h c
    have hrows : loadRecords [r] = { data := [] } := by
      simp [loadRecords, h]
    rw [hrows]
    exact lookup_empty_Get c
  · intro input
    cases input with
    | openFailed => simp [NewLookup]
    | readFailed => simp [NewLookup]
    | parsed records => exact ⟨fun _ => ⟨records, rfl⟩, fun _ => ⟨loadRecords records, rfl⟩⟩

/-- C10 witness: a file holding only the header row "Capcode;..." loads and
answers no query. -/
theorem newLookup_claim_witness :
    isHeaderRow [["Capcode", "Agency", "Region", "Station", "Function"]] = true
    ∧ (loadRecords [["Capcode", "Agency", "Region", "Station", "Function"]]).Get
        "0101001" = none :=
  ⟨by decide,
    newLookup_claim.2.1 ["Capcode", "Agency", "Region", "Station", "Function"]
      (by decide) "0101001"⟩

/-! ## C7: best-effort status channel -/

/-- A try-send never grows the buffer beyond the capacity bound. -/
lemma notifyStatus_length_le (ch : StatusChan) (b : Bool)
    (h : ch.length ≤ statusChanCapacity) :
    (notifyStatus ch b).length ≤ statusChanCapacity := by
  unfold notifyStatus
  split
  · simp only [List.length_append, List.length_cons, List.length_nil]
    omega
  · exact h

/-- The buffer bound is preserved by every interleaving of reports and
drains. -/
lemma chanRun_length_le (ops : List ChanOp) :
    ∀ ch : StatusChan, ch.length ≤ statusChanCapacity →
      (chanRun ch ops).length ≤ statusChanCapacity := by
  induction ops with
  | nil => intro ch h; simpa [chanRun] using h
  | cons op rest ih =>
    intro ch h
    cases op with
    | report b => exact ih _ (notifyStatus_length_le ch b h)
    | drain =>
      refine ih _ ?_
      cases ch with
      | nil => exact h
      | cons v vs =>
        simp only [statusRecv]
        exact le_trans (Nat.le_succ _) h

/-- C7: the status feed is a single-slot channel and reporting is try-send:
a free slot accepts the value, a full slot drops the new value leaving the
buffer unchanged, and in every interleaving the buffer never holds more than
one value — so the sender always continues immediately. -/
theorem notifyStatus_claim :
    statusChanCapacity = 1
    ∧ (∀ ops, (chanRun [] ops).length ≤ statusChanCapacity)
    ∧ (∀ (ch : StatusChan) (b : Bool), statusChanCapacity ≤ ch.length →
        notifyStatus ch b = ch)
    ∧ (∀ (ch : StatusChan) (b : Bool), ch.length < statusChanCapacity →
        notifyStatus ch b = ch ++ [b]) := by
  refine ⟨rfl, fun ops => chanRun_length_le ops [] (by simp), ?_, ?_⟩
  · intro ch b h
    unfold notifyStatus
    split
    · omega
    · rfl
  · intro ch b h
    unfold notifyStatus
    split
    · rfl
    · omega

/-- C7 witness: a full single slot drops the report, an empty slot takes
it. -/
theorem notifyStatus_claim_witness :
    statusChanCapacity ≤ [true].length
    ∧ notifyStatus [true] false = [true]
    ∧ ([] : StatusChan).length < statusChanCapacity
    ∧ notifyStatus [] true = [true] :=
  ⟨by decide, notifyStatus_claim.2.2.1 [true] false (by decide), by decide,
    notifyStatus_claim.2.2.2 [] true (by decide)⟩

/-! ## C1: reconnect backoff -/

/-- Doubling a capped power of two stays the capped next power of two. -/
lemma increaseBackoff_min (k : Nat) :
    increaseBackoff (min (2 ^ k) 30) = min (2 ^ (k + 1)) 30 := by
  have hx : 2 ^ (k + 1) = 2 * 2 ^ k := by rw [pow_succ]; ring
  unfold increaseBackoff
  simp only [backoffMultiplier, maxBackoff]
  rcases Nat.le_total (2 ^ k) 30 with h | h <;>
    · split <;> omega

/-- Iterating increaseBackoff from the initial value yields the capped
exponential. -/
lemma iterate_increaseBackoff (k : Nat) :
    increaseBackoff^[k] initialBackoff
      = min (initialBackoff * backoffMultiplier ^ k) maxBackoff := by
  induction k with
  | zero => simp [initialBackoff, maxBackoff]
  | succ n ih =>
    rw [Function.iterate_succ_apply', ih]
    simpa [initialBackoff, backoffMultiplier, maxBackoff] using increaseBackoff_min n

/-- Splitting a trace splits its delays. -/
lemma delaysOf_append (xs ys : List ConnEvent) :
    delaysOf (xs ++ ys) = delaysOf xs ++ delaysOf ys := by
  simp [delaysOf]

/-- Read events contribute no delay. -/
lemma delaysOf_replicate_frameRead (m : Nat) :
    delaysOf (List.replicate m ConnEvent.frameRead) = [] := by
  induction m with
  | zero => rfl
  | succ k ih =>
    rw [List.replicate_succ]
    simp only [delaysOf, List.filterMap_cons] at ih ⊢
    exact ih

/-- One unrolling of the Connect loop. -/
lemma connectRun_cons (b : Nat) (a : ConnAttempt) (rest : List ConnAttempt) :
    (connectRun b (a :: rest)).2
      = (connectAndListenRun b a).2
        ++ [ConnEvent.statusSent false, ConnEvent.waited (connectAndListenRun b a).1]
        ++ (connectRun (increaseBackoff (connectAndListenRun b a).1) rest).2 := rfl

/-- A failed dial leaves the backoff alone and only records the failure. -/
lemma connAttempt_fail (b : Nat) :
    connectAndListenRun b { dialOk := false, frames := 0 }
      = (b, [ConnEvent.dialFailed]) := rfl

/-- A successful dial resets the backoff and reads m frames before the read
failure. -/
lemma connAttempt_ok (b m : Nat) :
    connectAndListenRun b { dialOk := true, frames := m }
      = (resetBackoff,
          [ConnEvent.dialOk, ConnEvent.backoffReset, ConnEvent.statusSent true]
            ++ List.replicate m ConnEvent.frameRead ++ [ConnEvent.readFailed]) := rfl

/-- The delays over a run of consecutive dial failures iterate
increaseBackoff from the entering value. -/
lemma connectRun_fail_delays (n : Nat) :
    ∀ b, delaysOf (connectRun b (List.replicate n { dialOk := false, frames := 0 })).2
      = (List.range n).map (fun k => increaseBackoff^[k] b) := by
  induction n with
  | zero => intro b; simp [connectRun, delaysOf]
  | succ m ih =>
    intro b
    rw [List.replicate_succ, connectRun_cons, connAttempt_fail]
    rw [delaysOf_append, delaysOf_append, ih (increaseBackoff b)]
    rw [List.range_succ_eq_map, List.map_cons, List.map_map]
    simp only [delaysOf, List.filterMap_cons, List.filterMap_nil]
    simp only [Function.iterate_zero_apply, List.nil_append, List.cons_append,
      List.append_nil]
    refine congrArg (fun t => b :: t) ?_
    exact List.map_congr_left fun k _ => (Function.iterate_succ_apply _ k b).symm

/-- C1: from a fresh client, n consecutive dial failures wait exactly
min(initial * multiplier^k, max) seconds on the k-th failure (1s, 2s, 4s,
8s, 16s, 30s, 30s, ...); after any successful connection the same sequence
restarts from 1s whatever the backoff was before, because connectAndListen
resets the backoff immediately after the handshake — the reset is the very
next event after the dial succeeds, before any frame is read. -/
theorem connect_backoff_claim :
    (∀ n, delaysOf
        (connectRun initialBackoff (List.replicate n { dialOk := false, frames := 0 })).2
      = (List.range n).map (fun k => min (initialBackoff * backoffMultiplier ^ k) maxBackoff))
    ∧ (∀ b m n, delaysOf
        (connectRun b ({ dialOk := true, frames := m }
          :: List.replicate n { dialOk := false, frames := 0 })).2
      = (List.range (n + 1)).map
          (fun k => min (initialBackoff * backoffMultiplier ^ k) maxBackoff))
    ∧ (∀ b m, (connectAndListenRun b { dialOk := true, frames := m }).2.take 2
          = [ConnEvent.dialOk, ConnEvent.backoffReset]
        ∧ (connectAndListenRun b { dialOk := true, frames := m }).1 = initialBackoff) := by
  refine ⟨?_, ?_, ?_⟩
  · intro n
    rw [connectRun_fail_delays n initialBackoff]
    exact List.map_congr_left fun k _ => iterate_increaseBackoff k
  · intro b m n
    rw [connectRun_cons, connAttempt_ok]
    rw [delaysOf_append, delaysOf_append, delaysOf_append, delaysOf_append,
      delaysOf_replicate_frameRead, connectRun_fail_delays n]
    rw [List.range_succ_eq_map, List.map_cons, List.map_map]
    simp only [delaysOf, List.filterMap_cons, List.filterMap_nil]
    simp only [List.nil_append, List.cons_append, List.append_nil]
    refine congrArg₂ (fun h t => h :: t) (by decide) ?_
    refine List.map_congr_left fun k _ => ?_
    have h1 : increaseBackoff^[k] (increaseBackoff resetBackoff)
        = increaseBackoff^[k + 1] initialBackoff := by
      rw [Function.iterate_succ_apply]
      rfl
    rw [h1, iterate_increaseBackoff]
    simp [Function.comp, iterate_increaseBackoff]
  · intro b m
    exact ⟨by simp [connectAndListenRun], by simp [connectAndListenRun, resetBackoff]⟩

/-! ## C2: delivery retry loop -/

/-- A failed attempt exposes its error through reqErr. -/
lemma reqErr_isSome_exists (o : ReqOutcome) (h : (reqErr o).isSome = true) :
    ∃ e, sendRequest o = .error e := by
  unfold reqErr at h
  cases hreq : sendRequest o with
  | error e => exact ⟨e, rfl⟩
  | ok u => rw [hreq] at h; simp at h

/-- The loop performs at most fuel attempts. -/
lemma sendLoop_attempts_le (env : Nat → ReqOutcome) (cancel : Nat → Bool) :
    ∀ fuel attempt lastErr, (sendLoop env cancel fuel attempt lastErr).attempts ≤ fuel := by
  intro fuel
  induction fuel with
  | zero => intro attempt lastErr; simp [sendLoop]
  | succ f ih =>
    intro attempt lastErr
    rw [sendLoop]
    by_cases hc : 0 < attempt ∧ cancel attempt = true
    · rw [if_pos hc]
      simp
    · rw [if_neg hc]
      cases hreq : sendRequest (env attempt) with
      | error e =>
        simp only [hreq]
        exact Nat.succ_le_succ (ih (attempt + 1) (some e))
      | ok u => simp [hreq]

/-- From any attempt index at least 1, the completed waits are an initial
segment of the arithmetic backoff schedule starting there. -/
lemma sendLoop_waits_prefix (env : Nat → ReqOutcome) (cancel : Nat → Bool) :
    ∀ fuel attempt lastErr, 1 ≤ attempt →
      (sendLoop env cancel fuel attempt lastErr).waits
        <+: (List.range fuel).map (fun j => retryBackoff * (attempt + j)) := by
  intro fuel
  induction fuel with
  | zero => intro attempt lastErr _; simp [sendLoop]
  | succ f ih =>
    intro attempt lastErr ha
    rw [sendLoop]
    by_cases hc : 0 < attempt ∧ cancel attempt = true
    · rw [if_pos hc]; exact List.nil_prefix
    · rw [if_neg hc]
      rw [List.range_succ_eq_map, List.map_cons, List.map_map]
      cases hreq : sendRequest (env attempt) with
      | error e =>
        simp only [if_pos (show 0 < attempt by omega), Nat.add_zero]
        have htail := ih (attempt + 1) (some e) (by omega)
        have hfun : ((fun j => retryBackoff * (attempt + j)) ∘ Nat.succ)
            = fun j => retryBackoff * (attempt + 1 + j) := by
          funext j
          simp only [Function.comp]
          exact congrArg (retryBackoff * ·) (by omega)
        rw [hfun]
        obtain ⟨u, hu⟩ := htail
        exact ⟨u, by simp [hu]⟩
      | ok u =>
        simp only [if_pos (show 0 < attempt by omega), Nat.add_zero]
        exact ⟨_, rfl⟩

/-- C2: Send performs at most three attempts; every completed wait sequence
is an initial segment of 2s, 4s; an attempt succeeds exactly on a 2xx
status, while construction and transport failures fail the attempt; with no
cancellation, three failing attempts exhaust the budget after waits of 2s
and 4s and surface the last attempt's error; a cancellation firing during a
wait returns at once with only the earlier waits and attempts performed; and
a failure followed by a success retries and succeeds after one 2s wait. -/
theorem send_claim :
    (∀ env cancel, (send env cancel).attempts ≤ maxRetries)
    ∧ (∀ env cancel, (send env cancel).waits <+: [retryBackoff * 1, retryBackoff * 2])
    ∧ (∀ status, reqErr (.response status) = none ↔ 200 ≤ status ∧ status < 300)
    ∧ ((reqErr .constructErr).isSome = true ∧ (reqErr .transportErr).isSome = true)
    ∧ (∀ env cancel,
        ((List.range maxRetries).all fun k => !cancel k) = true →
        ((List.range maxRetries).all fun k => (reqErr (env k)).isSome) = true →
        send env cancel
          = { result := .exhausted (reqErr (env 2)), waits := [2, 4], attempts := 3 })
    ∧ (∀ env cancel k, 0 < k → k < maxRetries → cancel k = true →
        ((List.range k).all fun j => !cancel j && (reqErr (env j)).isSome) = true →
        send env cancel
          = { result := .cancelled,
              waits := (List.range (k - 1)).map fun j => retryBackoff * (j + 1),
              attempts := k })
    ∧ (∀ env cancel,
        ((List.range maxRetries).all fun k => !cancel k) = true →
        (reqErr (env 0)).isSome = true → reqErr (env 1) = none →
        send env cancel = { result := .success, waits := [2], attempts := 2 }) := by
  have hrange3 : List.range maxRetries = [0, 1, 2] := rfl
  refine ⟨?_, ?_, ?_, ⟨rfl, rfl⟩, ?_, ?_, ?_⟩
  · intro env cancel
    exact sendLoop_attempts_le env cancel maxRetries 0 none
  · intro env cancel
    rw [send, show maxRetries = 2 + 1 from rfl, sendLoop]
    simp only [Nat.lt_irrefl, false_and, if_false, if_neg (Nat.lt_irrefl 0)]
    cases hreq : sendRequest (env 0) with
    | error e =>
      have h := sendLoop_waits_prefix env cancel 2 1 (some e) (le_refl 1)
      have h2 : (List.range 2).map (fun j => retryBackoff * (1 + j))
          = [retryBackoff * 1, retryBackoff * 2] := by decide
      rw [h2] at h
      simpa using h
    | ok u => simp
  · intro status
    simp only [reqErr, sendRequest]
    by_cases h : status < 200 ∨ 300 ≤ status
    · rw [if_pos h]
      constructor
      · intro hx; exact Option.noConfusion hx
      · intro hx; exact absurd hx (by omega)
    · rw [if_neg h]
      exact ⟨fun _ => by omega, fun _ => rfl⟩
  · intro env cancel hcan hfail
    rw [hrange3] at hcan hfail
    simp only [List.all_cons, List.all_nil, Bool.and_eq_true, Bool.not_eq_true'] at hcan hfail
    obtain ⟨e0, he0⟩ := reqErr_isSome_exists _ hfail.1
    obtain ⟨e1, he1⟩ := reqErr_isSome_exists _ hfail.2.1
    obtain ⟨e2, he2⟩ := reqErr_isSome_exists _ hfail.2.2.1
    simp [send, maxRetries, sendLoop, hcan.2.1, hcan.2.2.1, he0, he1, he2,
      reqErr, retryBackoff]
  · intro env cancel k hk0 hk3 hck hprev
    rw [show maxRetries = 3 from rfl] at hk3
    interval_cases k
    · rw [show List.range 1 = [0] from rfl] at hprev
      simp only [List.all_cons, List.all_nil, Bool.and_eq_true, Bool.not_eq_true'] at hprev
      obtain ⟨e0, he0⟩ := reqErr_isSome_exists _ hprev.1.2
      simp [send, maxRetries, sendLoop, he0, hck]
    · rw [show List.range 2 = [0, 1] from rfl] at hprev
      simp only [List.all_cons, List.all_nil, Bool.and_eq_true, Bool.not_eq_true'] at hprev
      obtain ⟨e0, he0⟩ := reqErr_isSome_exists _ hprev.1.2
      obtain ⟨e1, he1⟩ := reqErr_isSome_exists _ hprev.2.1.2
      simp [send, maxRetries, sendLoop, he0, he1, hck, hprev.2.1.1, retryBackoff]
      decide
  · intro env cancel hcan h0 h1
    rw [hrange3] at hcan
    simp only [List.all_cons, List.all_nil, Bool.and_eq_true, Bool.not_eq_true'] at hcan
    obtain ⟨e0, he0⟩ := reqErr_isSome_exists _ h0
    have he1 : sendRequest (env 1) = .ok () := by
      unfold reqErr at h1
      cases hreq : sendRequest (env 1) with
      | error e => rw [hreq] at h1; simp at h1
      | ok u => rfl
    simp [send, maxRetries, sendLoop, he0, he1, hcan.2.1, retryBackoff]

/-- The outcome oracle of a server that always answers 500. -/
def env500 : Nat → ReqOutcome := fun _ => .response 500

/-- A context that never fires. -/
def noCancel : Nat → Bool := fun _ => false

/-- C2 witness: against a permanent 500 with no cancellation, Send makes
exactly 3 attempts, waits 2s then 4s, and reports the last error. -/
theorem send_claim_witness :
    ((List.range maxRetries).all fun k => !noCancel k) = true
    ∧ ((List.range maxRetries).all fun k => (reqErr (env500 k)).isSome) = true
    ∧ send env500 noCancel
        = { result := .exhausted (reqErr (env500 2)), waits := [2, 4], attempts := 3 } :=
  ⟨by decide, by decide, send_claim.2.2.2.2.1 env500 noCancel (by decide) (by decide)⟩

/-! ## C6: tolerant frame decoding -/

/-- Prepending a field under a different key does not change a lookup. -/
lemma jField_cons_ne (k1 k : String) (v : JVal) (fields : List (String × JVal))
    (h : k1 ≠ k) : jField ((k1, v) :: fields) k = jField fields k := by
  have hstep : jField ((k1, v) :: fields) k
      = (match jField fields k with
        | some w => some w
        | none => if k1 = k then some v else none) := rfl
  rw [hstep]
  cases hj : jField fields k <;> simp [h]

/-- C6: a frame whose payload fails to decode is dropped — the handler is
not invoked for it and the read loop continues with the remaining frames;
the empty object decodes to the all-zero message; unknown object fields are
ignored; and a payload carrying only some fields leaves the others at their
zero values. -/
theorem handleMessage_claim :
    (∀ frames1 frames2 bad, handleMessage bad = none →
      readLoopMessages (frames1 ++ bad :: frames2)
        = readLoopMessages frames1 ++ readLoopMessages frames2)
    ∧ decodeP2000Message (.obj []) = .ok P2000Message.zero
    ∧ (∀ (k : String) (v : JVal) fields,
        k ∉ ["type", "timestamp", "signal", "frequency_error", "capcodes",
          "message", "agency"] →
        decodeP2000Message (.obj ((k, v) :: fields)) = decodeP2000Message (.obj fields))
    ∧ (∀ s, decodeP2000Message (.obj [("message", .str s)])
        = .ok { P2000Message.zero with message := s }) := by
  refine ⟨?_, rfl, ?_, fun s => rfl⟩
  · intro frames1 frames2 bad h
    simp [readLoopMessages, List.filterMap_append, List.filterMap_cons, h]
  · intro k v fields h
    simp only [List.mem_cons, not_or] at h
    obtain ⟨h1, h2, h3, h4, h5, h6, h7, -⟩ := h
    simp only [decodeP2000Message]
    rw [jField_cons_ne k "type" v fields h1,
      jField_cons_ne k "timestamp" v fields h2,
      jField_cons_ne k "signal" v fields h3,
      jField_cons_ne k "frequency_error" v fields h4,
      jField_cons_ne k "capcodes" v fields h5,
      jField_cons_ne k "message" v fields h6,
      jField_cons_ne k "agency" v fields h7]

/-- C6 witness: a numeric payload is dropped while the loop still decodes
the following empty-object frame, and the unknown key "frame" is ignored at
the top level. -/
theorem handleMessage_claim_witness :
    handleMessage (some (.num 3)) = none
    ∧ readLoopMessages [some (.num 3), some (.obj [])]
        = readLoopMessages [] ++ readLoopMessages [some (.obj [])]
    ∧ "frame" ∉ (["type", "timestamp", "signal", "frequency_error", "capcodes",
        "message", "agency"] : List String)
    ∧ decodeP2000Message (.obj [("frame", .null)]) = decodeP2000Message (.obj []) :=
  ⟨rfl, handleMessage_claim.1 [] [some (.obj [])] (some (.num 3)) rfl, by decide,
    handleMessage_claim.2.2.1 "frame" .null [] (by decide)⟩

/-! ## C8: Close -/

/-- C8 counterexample: on a fresh client (no socket open), the first Close
succeeds but the second panics with a close of the already-closed done
channel — so calling close a second time is not a failure-free no-op. -/
theorem close_not_idempotent :
    (WSClient.Close { connOpen := false, closeFramesSent := 0, doneClosed := false }
        >>= WSClient.Close)
      = Except.error "close of closed channel" := rfl

/-- C8 as amended: the socket-release step closeConnection is a no-op when
no socket is open and is idempotent, the first Close on an open socket sends
one close frame and releases the socket, but Close itself is not idempotent:
any second call panics by closing the already-closed done channel. -/
theorem close_claim_amended :
    (∀ c : WSClient, c.connOpen = false → closeConnection c = c)
    ∧ (∀ c : WSClient, closeConnection (closeConnection c) = closeConnection c)
    ∧ (∀ c : WSClient, c.doneClosed = false → c.connOpen = true →
        WSClient.Close c
          = .ok { connOpen := false
                  closeFramesSent := c.closeFramesSent + 1
                  doneClosed := true })
    ∧ (∀ c : WSClient, c.doneClosed = true →
        WSClient.Close c = .error "close of closed channel") := by
  refine ⟨?_, ?_, ?_, ?_⟩
  · intro c h
    simp [closeConnection, h]
  · intro c
    unfold closeConnection
    by_cases h : c.connOpen = true
    · simp [h]
    · simp [h]
  · intro c h1 h2
    simp [WSClient.Close, closeConnection, h1, h2]
  · intro c h
    simp [WSClient.Close, h]

/-- C8 witness for the amended claim: a concrete open client and a concrete
already-closed client. -/
theorem close_claim_witness :
    ({ connOpen := true, closeFramesSent := 0, doneClosed := false } : WSClient).doneClosed
        = false
    ∧ WSClient.Close { connOpen := true, closeFramesSent := 0, doneClosed := false }
        = .ok { connOpen := false, closeFramesSent := 1, doneClosed := true }
    ∧ ({ connOpen := false, closeFramesSent := 1, doneClosed := true } : WSClient).doneClosed
        = true
    ∧ WSClient.Close { connOpen := false, closeFramesSent := 1, doneClosed := true }
        = .error "close of closed channel" :=
  ⟨rfl,
    close_claim_amended.2.2.1 { connOpen := true, closeFramesSent := 0, doneClosed := false }
      rfl rfl,
    rfl,
    close_claim_amended.2.2.2 { connOpen := false, closeFramesSent := 1, doneClosed := true }
      rfl⟩

/-! ## C3: authentication selection -/

/-- C3: authentication on the outbound request is selected in fixed
precedence order — a configured password yields HTTP Basic authentication
with the configured username (whatever the token holds), otherwise a
configured token yields a Bearer Authorization header, otherwise the request
is unauthenticated. -/
theorem sendRequest_auth_claim :
    (∀ (n : Notifier) (title message priority tags : String), n.password ≠ "" →
      (n.sendRequestReq title message priority tags).auth
        = .basic n.username n.password)
    ∧ (∀ (n : Notifier) (title message priority tags : String),
        n.password = "" → n.token ≠ "" →
        (n.sendRequestReq title message priority tags).auth = .bearer n.token)
    ∧ (∀ (n : Notifier) (title message priority tags : String),
        n.password = "" → n.token = "" →
        (n.sendRequestReq title message priority tags).auth = .none) := by
  refine ⟨?_, ?_, ?_⟩
  · intro n title message priority tags h
    simp [Notifier.sendRequestReq, h]
  · intro n title message priority tags h1 h2
    simp [Notifier.sendRequestReq, h1, h2]
  · intro n title message priority tags h1 h2
    simp [Notifier.sendRequestReq, h1, h2]

/-- A notifier configured with both Basic credentials and a token. -/
def ntfyBasicDemo : Notifier :=
  NewNotifier "https://ntfy.sh" "topic" "tok" "user" "pass" [] none

/-- A notifier configured with a token only. -/
def ntfyBearerDemo : Notifier :=
  NewNotifier "https://ntfy.sh" "topic" "tok" "" "" [] none

/-- A notifier configured with no credentials. -/
def ntfyAnonDemo : Notifier :=
  NewNotifier "https://ntfy.sh" "topic" "" "" "" [] none

/-- C3 witness: with both credential kinds configured Basic wins, with only
a token the Bearer header is used, with neither the request is
unauthenticated. -/
theorem sendRequest_auth_claim_witness :
    ntfyBasicDemo.password ≠ ""
    ∧ (ntfyBasicDemo.sendRequestReq "t" "m" "3" "warning").auth = .basic "user" "pass"
    ∧ ntfyBearerDemo.password = ""
    ∧ (ntfyBearerDemo.sendRequestReq "t" "m" "3" "warning").auth = .bearer "tok"
    ∧ (ntfyAnonDemo.sendRequestReq "t" "m" "3" "warning").auth = .none :=
  ⟨by decide,
    sendRequest_auth_claim.1 ntfyBasicDemo "t" "m" "3" "warning" (by decide),
    by decide,
    sendRequest_auth_claim.2.1 ntfyBearerDemo "t" "m" "3" "warning" (by decide) (by decide),
    sendRequest_auth_claim.2.2 ntfyAnonDemo "t" "m" "3" "warning" (by decide) (by decide)⟩

/-! ## C9: notification title and agency label -/

/-- C9: the title is built from the message body with the constant
placeholder exactly when the body is empty; and the agency label opening the
notification body comes from the lookup record of the first capcode,
defaulting to the constant "overig" label when the first capcode has no
lookup match, when there is no capcode, or when no lookup is loaded. -/
theorem formatTitle_claim :
    (∀ (n : Notifier) (msg : P2000Message),
      formatTitle n msg
        = (if msg.message = "" then "🚨 P2000" else "🚨 " ++ msg.message))
    ∧ (∀ (n : Notifier) (lookup : Lookup) (msg : P2000Message) (c : String)
        (rest : List String) (info : CapcodeInfo),
        n.capcodeLookup = some lookup → msg.capcodes = c :: rest →
        lookup.Get c = some info →
        formatMessage n msg = info.agency ++ "\n\n" ++ capcodeSection n msg)
    ∧ (∀ (n : Notifier) (lookup : Lookup) (msg : P2000Message) (c : String)
        (rest : List String),
        n.capcodeLookup = some lookup → msg.capcodes = c :: rest →
        lookup.Get c = none →
        formatMessage n msg = "overig" ++ "\n\n" ++ capcodeSection n msg)
    ∧ (∀ (n : Notifier) (msg : P2000Message), msg.capcodes = [] →
        formatMessage n msg = "overig" ++ "\n\n" ++ capcodeSection n msg)
    ∧ (∀ (n : Notifier) (msg : P2000Message), n.capcodeLookup = none →
        formatMessage n msg = "overig" ++ "\n\n" ++ capcodeSection n msg) := by
  refine ⟨?_, ?_, ?_, ?_, ?_⟩
  · intro n msg
    by_cases h : msg.message = "" <;> simp [formatTitle, h]
  · intro n lookup msg c rest info h1 h2 h3
    simp [formatMessage, h1, h2, h3]
  · intro n lookup msg c rest h1 h2 h3
    simp [formatMessage, h1, h2, h3]
  · intro n msg h
    cases hl : n.capcodeLookup <;> simp [formatMessage, h, hl]
  · intro n msg h
    cases hc : msg.capcodes <;> simp [formatMessage, h, hc]

/-- A notifier loaded with a one-row reference table and no credentials. -/
def notifierDemo : Notifier :=
  NewNotifier "https://ntfy.sh" "topic" "" "" "" []
    (some (loadRecords [["0101001", "Brandweer", "Utrecht", "Utrecht", "Kazernealarm"]]))

/-- A message with a body and a single capcode missing from the table. -/
def msgDemo : P2000Message :=
  { P2000Message.zero with message := "Brand woning", capcodes := ["9999999"] }

/-- C9 witness: the demo title comes from the body, and the demo body opens
with the "overig" default because its only capcode has no lookup match. -/
theorem formatTitle_claim_witness :
    formatTitle notifierDemo msgDemo
        = (if msgDemo.message = "" then "🚨 P2000" else "🚨 " ++ msgDemo.message)
    ∧ formatTitle notifierDemo msgDemo = "🚨 Brand woning"
    ∧ (loadRecords [["0101001", "Brandweer", "Utrecht", "Utrecht", "Kazernealarm"]]).Get
        "9999999" = none
    ∧ formatMessage notifierDemo msgDemo
        = "overig" ++ "\n\n" ++ capcodeSection notifierDemo msgDemo :=
  ⟨formatTitle_claim.1 notifierDemo msgDemo,
    by decide,
    by decide,
    formatTitle_claim.2.2.1 notifierDemo
      (loadRecords [["0101001", "Brandweer", "Utrecht", "Utrecht", "Kazernealarm"]])
      msgDemo "9999999" [] rfl rfl (by decide)⟩

end P2000
